import Mathlib

/-!
Shallow embedding of the protocol engine of the `rust-mc-status-server`
repository (crates `varint` and `statusserver`), together with proofs
checking the specification's claims against it.

Conventions used throughout:
* machine integers are modelled as `Nat`/`Int`; an `i32` is carried as its
  32-bit two's-complement bit pattern (a `Nat < 2^32`), converted with
  `toPattern` / `toI32`;
* a byte stream (TCP transport or in-memory slice) is a `List Nat` of bytes;
  reads normalize with `% 2^8`, mirroring the `u8` reads of the source;
* loops of the source that can fail to terminate are modelled with an
  explicit fuel argument; a result of `none` for every fuel means the
  source's loop never finishes;
* overflow semantics follow Rust release builds: arithmetic wraps two's
  complement, shift amounts are masked (`% 32` on `i32`, `% 256` on `u8`).
-/

namespace StatusServer

/-! ### Varint codec — `src/varint/src/lib.rs` -/

/-- The 32-bit two's-complement pattern of an `i32` value. -/
def toPattern (n : Int) : Nat := (n % (2 ^ 32)).toNat

/-- The `i32` value of a 32-bit pattern. -/
def toI32 (p : Nat) : Int := if p < 2 ^ 31 then (p : Int) else (p : Int) - 2 ^ 32

/-- Rust `cur >> 7` on an `i32`, i.e. an arithmetic shift right by 7,
expressed on the 32-bit pattern: negative values keep their sign bits. -/
def asr7 (p : Nat) : Nat :=
  if p < 2 ^ 31 then p / 2 ^ 7 else p / 2 ^ 7 + (2 ^ 32 - 2 ^ 25)

/-- The loop of `encode` (lib.rs lines 24-37).  `cur` is the pattern of the
Rust variable of the same name, `acc` the vector `res` built so far.  The
fuel counts loop iterations; `none` means the loop did not finish within
the given fuel. -/
def encodeLoop : Nat → Nat → List Nat → Option (List Nat)
  | 0, _, _ => none
  | fuel + 1, cur, acc =>
    let b := cur % 2 ^ 7
    let cur2 := asr7 cur
    if cur2 = 0 then some (acc ++ [b]) else encodeLoop fuel cur2 (acc ++ [b + 2 ^ 7])

/-- `encode` (lib.rs lines 24-37).  Five iterations always suffice when the
loop terminates at all (each iteration of a terminating run strictly
shrinks a value below `2^31`), so fuel 5 is exact: `none` means the Rust
loop runs forever. -/
def encode (n : Int) : Option (List Nat) := encodeLoop 5 (toPattern n) []

/-- `encode` with a default, for the call sites of the status server where
the argument is a small non-negative length or id and the loop terminates. -/
def encodeD (n : Int) : List Nat := (encode n).getD []

/-- The loop of `decode_stream` (lib.rs lines 3-22).  `bytes` is the unread
part of the stream.  The source reads into a one-byte buffer and ignores a
0-byte read count, so at end of stream the stale previous byte (`lastB`,
initially 0 from the buffer initializer) is processed again.  `result` and
`shift` mirror the Rust locals: `result` is the `i32` pattern, `shift` a
`u8` (wraps `% 2^8`); the shift amount of `<<` on `i32` is masked `% 32`
and the shifted value wraps `% 2^32` (release-build semantics).  `none`
means the loop did not finish within the given fuel. -/
def decodeLoop : Nat → List Nat → Nat → Nat → Nat → Option (Nat × List Nat)
  | 0, _, _, _, _ => none
  | fuel + 1, bytes, lastB, shift, result =>
    let i := (match bytes with | [] => lastB | b :: _ => b) % 2 ^ 8
    let rest := match bytes with | [] => ([] : List Nat) | _ :: bs => bs
    let result2 := Nat.lor result ((i % 2 ^ 7) * 2 ^ (shift % 32) % 2 ^ 32)
    if Nat.land i (2 ^ 7) = 0 then some (result2, rest)
    else decodeLoop fuel rest i ((shift + 7) % 2 ^ 8) result2

/-- `decode_stream` (lib.rs lines 3-22) on a finite stream.  A terminating
run consumes at most one byte per iteration plus one final stale-byte
iteration, so fuel `length + 1` is exact: `none` means the Rust loop runs
forever on this stream. -/
def decode_stream (bytes : List Nat) : Option (Nat × List Nat) :=
  decodeLoop (bytes.length + 1) bytes 0 0 0

/-! ### Data model — `src/statusserver/src/player.rs`, `packets.rs` -/

/-- `ConnectionState` (player.rs lines 29-36). -/
inductive ConnectionState where
  | HANDSHAKING
  | STATUS
  | LOGIN
  | TRANSFER
deriving DecidableEq, Repr

/-- `HandshakeInfo` (player.rs lines 11-16).  `server_addr` is kept as the
raw UTF-8 byte list of the host string (its content is never consulted by
the protocol engine after storage). -/
structure HandshakeInfo where
  protocol : Nat
  server_addr : List Nat
  server_port : Nat
deriving DecidableEq, Repr

/-- The protocol-relevant fields of `Player` (player.rs lines 70-75); the
transport and the logged address do not affect the state machine and are
modelled by the stream/output parameters instead. -/
structure Player where
  state : ConnectionState
  handshake_info : Option HandshakeInfo
deriving DecidableEq, Repr

/-- `PacketError` (packets.rs lines 16-24).  Note there is no
`MalformedVarint` variant anywhere in the source. -/
inductive PacketError where
  | IOError
  | FromUtf8Error
  | Utf8Error
  | FromUtf16Error
  | DataError (bytes : List Nat)
  | ClosedError
deriving DecidableEq, Repr

/-- `PlayerListEntry` (packets.rs lines 63-67); the uuid is a `u128`. -/
structure PlayerListEntry where
  name : String
  uuid : Option Nat
deriving DecidableEq, Repr

/-- `ServerConfig` (packets.rs lines 87-96). -/
structure ServerConfig where
  version : String
  protocol : Option Nat
  online_players : Int
  max_players : Int
  player_list : List PlayerListEntry
  motd : String
  kick_message : String

/-- `ServerInfo` (packets.rs lines 98-102). -/
structure ServerInfo where
  config : ServerConfig
  icon : Option String

/-! ### Byte-stream reads.  The transport and in-memory slices are byte
lists; short reads through `read_exact`/`byteorder` surface as
`io::Error` (`PacketError::IOError`), exactly as in the source. -/

/-- `Read::read_exact` on a slice/stream: fails with an I/O error when
fewer than `n` bytes remain. -/
def readExact (n : Nat) (l : List Nat) : Except PacketError (List Nat × List Nat) :=
  if n ≤ l.length then .ok ((l.take n).map (fun b => b % 2 ^ 8), l.drop n)
  else .error .IOError

/-- `read_u8`. -/
def readU8 : List Nat → Except PacketError (Nat × List Nat)
  | [] => .error .IOError
  | b :: r => .ok (b % 2 ^ 8, r)

/-- `read_u16::<BigEndian>`. -/
def readU16BE : List Nat → Except PacketError (Nat × List Nat)
  | b0 :: b1 :: r => .ok ((b0 % 2 ^ 8) * 2 ^ 8 + b1 % 2 ^ 8, r)
  | _ => .error .IOError

/-- `read_u32::<BigEndian>`. -/
def readU32BE : List Nat → Except PacketError (Nat × List Nat)
  | b0 :: b1 :: b2 :: b3 :: r =>
    .ok (((b0 % 2 ^ 8) * 2 ^ 8 + b1 % 2 ^ 8) * 2 ^ 16 + (b2 % 2 ^ 8) * 2 ^ 8 + b3 % 2 ^ 8, r)
  | _ => .error .IOError

/-! ### UTF-8 and UTF-16 codecs, as used by `String::from_utf8`,
`str::from_utf8`, `String::from_utf16` and `str::encode_utf16`. -/

/-- Is `c` a UTF-8 continuation byte (`0x80..=0xBF`)? -/
def utf8Cont (c : Nat) : Bool := 128 ≤ c && c ≤ 191

/-- Rust's UTF-8 validation (`String::from_utf8` / `str::from_utf8`
succeed exactly on byte sequences this accepts). -/
def isValidUtf8 : List Nat → Bool
  | [] => true
  | b :: r =>
    if b ≤ 127 then isValidUtf8 r
    else if 194 ≤ b && b ≤ 223 then
      match r with
      | c :: r2 => utf8Cont c && isValidUtf8 r2
      | [] => false
    else if b = 224 then
      match r with
      | c1 :: c2 :: r2 => (160 ≤ c1 && c1 ≤ 191) && utf8Cont c2 && isValidUtf8 r2
      | _ => false
    else if (225 ≤ b && b ≤ 236) || (238 ≤ b && b ≤ 239) then
      match r with
      | c1 :: c2 :: r2 => utf8Cont c1 && utf8Cont c2 && isValidUtf8 r2
      | _ => false
    else if b = 237 then
      match r with
      | c1 :: c2 :: r2 => (128 ≤ c1 && c1 ≤ 159) && utf8Cont c2 && isValidUtf8 r2
      | _ => false
    else if b = 240 then
      match r with
      | c1 :: c2 :: c3 :: r2 =>
        (144 ≤ c1 && c1 ≤ 191) && utf8Cont c2 && utf8Cont c3 && isValidUtf8 r2
      | _ => false
    else if 241 ≤ b && b ≤ 243 then
      match r with
      | c1 :: c2 :: c3 :: r2 => utf8Cont c1 && utf8Cont c2 && utf8Cont c3 && isValidUtf8 r2
      | _ => false
    else if b = 244 then
      match r with
      | c1 :: c2 :: c3 :: r2 =>
        (128 ≤ c1 && c1 ≤ 143) && utf8Cont c2 && utf8Cont c3 && isValidUtf8 r2
      | _ => false
    else false

/-- UTF-8 encoding of one scalar value (used for `String::as_bytes` /
`str::len` of the Lean-side strings). -/
def utf8EncodeChar (c : Nat) : List Nat :=
  if c < 128 then [c]
  else if c < 2048 then [192 + c / 64, 128 + c % 64]
  else if c < 65536 then [224 + c / 4096, 128 + c / 64 % 64, 128 + c % 64]
  else [240 + c / 262144, 128 + c / 4096 % 64, 128 + c / 64 % 64, 128 + c % 64]

/-- The UTF-8 bytes of a string (Rust `s.as_bytes()`). -/
def strUtf8 (s : String) : List Nat := s.data.flatMap (fun c => utf8EncodeChar c.toNat)

/-- Rust `s.len()`: the UTF-8 byte length. -/
def utf8Len (s : String) : Nat := (strUtf8 s).length

/-- Group big-endian byte pairs into 16-bit units (the `read_u16`
loop of `read_utf16_string`). -/
def utf16Units : List Nat → List Nat
  | b0 :: b1 :: r => ((b0 % 2 ^ 8) * 2 ^ 8 + b1 % 2 ^ 8) :: utf16Units r
  | _ => []

/-- `String::from_utf16`: fails (`FromUtf16Error`) exactly on lone
surrogates. -/
def utf16Decode : List Nat → Option (List Char)
  | [] => some []
  | u :: r =>
    if u < 55296 ∨ 57344 ≤ u then
      match utf16Decode r with
      | some cs => some (Char.ofNat u :: cs)
      | none => none
    else if u < 56320 then
      match r with
      | u2 :: r2 =>
        if 56320 ≤ u2 ∧ u2 < 57344 then
          match utf16Decode r2 with
          | some cs => some (Char.ofNat (65536 + (u - 55296) * 1024 + (u2 - 56320)) :: cs)
          | none => none
        else none
      | [] => none
    else none

/-- `str::encode_utf16`: the UTF-16 code units of a string. -/
def utf16Encode (s : String) : List Nat :=
  s.data.flatMap (fun c =>
    if c.toNat < 65536 then [c.toNat]
    else [55296 + (c.toNat - 65536) / 1024, 56320 + (c.toNat - 65536) % 1024])

/-! ### JSON values — the subset of the `json` crate's `JsonValue` the
status server builds.  `json::parse` of the externally configured MOTD and
kick-message strings is external library code; handlers take its outcome
as an `Option Json` parameter (`some v` when the string parses as JSON). -/

/-- A JSON value (`json::JsonValue`). -/
inductive Json where
  | null
  | bool (b : Bool)
  | num (n : Int)
  | str (s : String)
  | arr (xs : List Json)
  | obj (fields : List (String × Json))

/-- One escaped character of the compact serializer. -/
def escapeChar (c : Char) : String :=
  if c = '"' then "\\\""
  else if c = '\\' then "\\\\"
  else if c = '\n' then "\\n"
  else if c = '\r' then "\\r"
  else if c = '\t' then "\\t"
  else String.singleton c

/-- String escaping of the compact serializer (the claims never exercise
characters beyond these escapes). -/
def jsonEscape (s : String) : String := String.join (s.data.map escapeChar)

mutual

/-- `JsonValue::to_string()`: the `json` crate's compact serialization. -/
def jsonToString : Json → String
  | .null => "null"
  | .bool true => "true"
  | .bool false => "false"
  | .num n => toString n
  | .str s => "\"" ++ jsonEscape s ++ "\""
  | .arr xs => "[" ++ jsonArrToString xs ++ "]"
  | .obj fs => "\x7b" ++ jsonObjToString fs ++ "\x7d"

/-- Comma-joined serialization of array elements. -/
def jsonArrToString : List Json → String
  | [] => ""
  | [x] => jsonToString x
  | x :: y :: xs => jsonToString x ++ "," ++ jsonArrToString (y :: xs)

/-- Comma-joined serialization of object fields. -/
def jsonObjToString : List (String × Json) → String
  | [] => ""
  | [(k, v)] => "\"" ++ jsonEscape k ++ "\":" ++ jsonToString v
  | (k, v) :: f :: fs =>
    "\"" ++ jsonEscape k ++ "\":" ++ jsonToString v ++ "," ++ jsonObjToString (f :: fs)

end

/-- Lookup of a field in an object's field list. -/
def lookupField : List (String × Json) → String → Option Json
  | [], _ => none
  | (k, v) :: fs, key => if k = key then some v else lookupField fs key

/-- Field lookup in a JSON object (`JsonValue::[]` on the built object). -/
def jLookup : Json → String → Option Json
  | .obj fs, key => lookupField fs key
  | _, _ => none

/-- One lower-case hex digit. -/
def hexDigit (n : Nat) : Char := if n < 10 then Char.ofNat (48 + n) else Char.ofNat (87 + n)

/-- `w` big-endian lower-case hex digits of `n`. -/
def hexPadAux : Nat → Nat → List Char
  | 0, _ => []
  | w + 1, n => hexPadAux w (n / 16) ++ [hexDigit (n % 16)]

/-- `uuid::Uuid::to_string()`: the hyphenated textual form of a `u128`. -/
def uuidToString (u : Nat) : String :=
  ⟨hexPadAux 8 (u / 2 ^ 96 % 2 ^ 32)⟩ ++ "-" ++ ⟨hexPadAux 4 (u / 2 ^ 80 % 2 ^ 16)⟩ ++ "-"
    ++ ⟨hexPadAux 4 (u / 2 ^ 64 % 2 ^ 16)⟩ ++ "-" ++ ⟨hexPadAux 4 (u / 2 ^ 48 % 2 ^ 16)⟩
    ++ "-" ++ ⟨hexPadAux 12 (u % 2 ^ 48)⟩

/-- `From<PlayerListEntry> for JsonValue` (packets.rs lines 78-85): an
absent uuid falls back to `DEFAULT_UUID`, the all-zeros uuid. -/
def playerListEntryToJson (e : PlayerListEntry) : Json :=
  Json.obj [("name", Json.str e.name), ("id", Json.str (uuidToString (e.uuid.getD 0)))]

/-! ### Packet construction and handlers — `src/statusserver/src/packets.rs` -/

/-- `send_packet` (packets.rs lines 189-198): the bytes written for a
packet, `encode(len(encode(id)) + len(data)) ‖ encode(id) ‖ data`. -/
def send_packet (packet_id : Int) (data : List Nat) : List Nat :=
  let pid := encodeD packet_id
  encodeD ((pid.length : Int) + (data.length : Int)) ++ pid ++ data

/-- Side effects of a handler on the transport besides reading: bytes
written, and whether `shutdown(Both)` was called. -/
structure Eff where
  out : List Nat
  shutdown : Bool
deriving DecidableEq, Repr

/-- No transport effect. -/
def noEff : Eff := ⟨[], false⟩

deriving instance DecidableEq for Except

/-- Result of a packet handler: the `Result` of the Rust function (with
the possibly updated player on success) plus the transport effects. -/
structure HandlerOut where
  res : Except PacketError Player
  eff : Eff
deriving DecidableEq, Repr

/-- Rust `v as usize` on an `i32` value: sign-extension to 64 bits. -/
def usizeOfI32 (v : Int) : Nat := (v % 2 ^ 64).toNat

/-- The big-endian bytes of an `i32` (`name_len.to_be_bytes()`). -/
def i32BeBytes (v : Int) : List Nat :=
  [toPattern v / 2 ^ 24 % 2 ^ 8, toPattern v / 2 ^ 16 % 2 ^ 8,
   toPattern v / 2 ^ 8 % 2 ^ 8, toPattern v % 2 ^ 8]

/-- `handle_handshake` (packets.rs lines 131-155).  Parses
`protocol: varint (as u16)`, a varint-length-prefixed UTF-8 host string,
`port: u16 BE`, `intent: varint`, converts `intent as u8` through
`ConnectionState::try_from` (player.rs lines 57-68: 1 → STATUS, 2 → LOGIN,
3 → TRANSFER, otherwise `DataError` with that byte), then stores the
`HandshakeInfo` and the new state.  `none` = a varint decode inside the
buffer never terminates. -/
def handle_handshake (_client : Player) (buf : List Nat) : Option HandlerOut :=
  match decode_stream buf with
  | none => none
  | some (protoP, r1) =>
    match decode_stream r1 with
    | none => none
    | some (strlenP, r2) =>
      match readExact (usizeOfI32 (toI32 strlenP)) r2 with
      | .error e => some ⟨.error e, noEff⟩
      | .ok (strbuf, r3) =>
        if isValidUtf8 strbuf = false then some ⟨.error .FromUtf8Error, noEff⟩
        else
          match readU16BE r3 with
          | .error e => some ⟨.error e, noEff⟩
          | .ok (port, r4) =>
            match decode_stream r4 with
            | none => none
            | some (intentP, _r5) =>
              if intentP % 2 ^ 8 = 1 then
                some ⟨.ok ⟨.STATUS, some ⟨protoP % 2 ^ 16, strbuf, port⟩⟩, noEff⟩
              else if intentP % 2 ^ 8 = 2 then
                some ⟨.ok ⟨.LOGIN, some ⟨protoP % 2 ^ 16, strbuf, port⟩⟩, noEff⟩
              else if intentP % 2 ^ 8 = 3 then
                some ⟨.ok ⟨.TRANSFER, some ⟨protoP % 2 ^ 16, strbuf, port⟩⟩, noEff⟩
              else some ⟨.error (.DataError [intentP % 2 ^ 8]), noEff⟩

/-- The protocol number of the status response (packets.rs lines 213-219):
`config.protocol`, else the handshake-captured protocol, else 127. -/
def statusProtocol (client : Player) (info : ServerInfo) : Nat :=
  match info.config.protocol with
  | some p => p
  | none =>
    match client.handshake_info with
    | some h => h.protocol
    | none => 127

/-- `make_status_response` (packets.rs lines 157-187) as the `object!`
value it serializes.  `motdParse` is the outcome of `json::parse(motd)`;
`unwrap_or` keeps the raw string when parsing fails. -/
def make_status_response (version : String) (protocol : Nat) (maxplr : Int) (players : Int)
    (playerlist : List PlayerListEntry) (motd : String) (motdParse : Option Json)
    (secure : Bool) (icon : Option String) : Json :=
  Json.obj
    [("version", Json.obj [("name", Json.str version), ("protocol", Json.num (protocol : Int))]),
     ("players", Json.obj [("max", Json.num maxplr), ("online", Json.num players),
        ("sample", Json.arr (playerlist.map playerListEntryToJson))]),
     ("description", motdParse.getD (Json.str motd)),
     ("favicon", match icon with
        | some i => Json.str ("data:image/png;base64," ++ i)
        | none => Json.null),
     ("enforcesSecureChat", Json.bool secure)]

/-- The JSON document `handle_status` builds (packets.rs lines 220-229). -/
def handle_statusJson (client : Player) (info : ServerInfo) (motdParse : Option Json) : Json :=
  make_status_response info.config.version (statusProtocol client info) info.config.max_players
    info.config.online_players info.config.player_list info.config.motd motdParse false
    info.icon

/-- `handle_status` (packets.rs lines 207-235): ignores the body, sends
packet id 0 whose data is `varint(len(json)) ‖ json`. -/
def handle_status (client : Player) (info : ServerInfo) (motdParse : Option Json) : HandlerOut :=
  let response := strUtf8 (jsonToString (handle_statusJson client info motdParse))
  ⟨.ok client, ⟨send_packet 0 (encodeD (response.length : Int) ++ response), false⟩⟩

/-- `handle_ping` (packets.rs lines 200-205): reads a `u64 BE` and echoes
its 8 bytes back under packet id 1. -/
def handle_ping (client : Player) (buf : List Nat) : HandlerOut :=
  match readExact 8 buf with
  | .error e => ⟨.error e, noEff⟩
  | .ok (pong, _) => ⟨.ok client, ⟨send_packet 1 pong, false⟩⟩

/-- The kick string of `handle_login` (packets.rs lines 255-258):
`json::parse(kick_message)` reserialized when it parses, the raw
configured string otherwise.  `kickParse` is the parse outcome. -/
def kickString (info : ServerInfo) (kickParse : Option Json) : String :=
  match kickParse with
  | some v => jsonToString v
  | none => info.config.kick_message

/-- `handle_login` (packets.rs lines 237-263).  A name length outside
`(0, 16]` shuts the transport down both ways and fails with `DataError`
on the four big-endian bytes of the length; otherwise the name and uuid
are read and packet id 0 is sent with `varint(len(s)) ‖ s` for the kick
string `s`. -/
def handle_login (client : Player) (buf : List Nat) (info : ServerInfo)
    (kickParse : Option Json) : Option HandlerOut :=
  match decode_stream buf with
  | none => none
  | some (nlP, r1) =>
    if toI32 nlP ≤ 0 ∨ toI32 nlP > 16 then
      some ⟨.error (.DataError (i32BeBytes (toI32 nlP))), ⟨[], true⟩⟩
    else
      match readExact (toI32 nlP).toNat r1 with
      | .error e => some ⟨.error e, noEff⟩
      | .ok (namebuf, r2) =>
        if isValidUtf8 namebuf = false then some ⟨.error .Utf8Error, noEff⟩
        else
          match readExact 16 r2 with
          | .error e => some ⟨.error e, noEff⟩
          | .ok (_, _) =>
            let s := kickString info kickParse
            some ⟨.ok client, ⟨send_packet 0 (encodeD (utf8Len s : Int) ++ strUtf8 s), false⟩⟩

/-- `handle_status_login` (packets.rs lines 104-129): dispatch of packet
id 0 on the connection state; in `TRANSFER` the packet is logged as
invalid and ignored. -/
def handle_status_login (client : Player) (buf : List Nat) (info : ServerInfo)
    (motdParse kickParse : Option Json) : Option HandlerOut :=
  match client.state with
  | .HANDSHAKING => handle_handshake client buf
  | .STATUS => some (handle_status client info motdParse)
  | .LOGIN => handle_login client buf info kickParse
  | .TRANSFER => some ⟨.ok client, noEff⟩

/-- `Player::handle_packet` (player.rs lines 88-107): decodes the packet
id from the frame buffer and dispatches; ids other than 0 and 1 are
logged and ignored. -/
def handle_packet (client : Player) (buf : List Nat) (info : ServerInfo)
    (motdParse kickParse : Option Json) : Option HandlerOut :=
  match decode_stream buf with
  | none => none
  | some (pidP, r1) =>
    if toI32 pidP = 0 then handle_status_login client r1 info motdParse kickParse
    else if toI32 pidP = 1 then some (handle_ping client r1)
    else some ⟨.ok client, noEff⟩

/-! ### Legacy ping and the frame reader — `src/statusserver/src/player.rs` -/

/-- `Player::read_utf16_string` (player.rs lines 109-120): `u16 BE`
length, `DataError` on its big-endian bytes when above 255, then that
many UTF-16 BE code units decoded with `String::from_utf16`. -/
def read_utf16_string (input : List Nat) : Except PacketError (String × List Nat) :=
  match readU16BE input with
  | .error e => .error e
  | .ok (strlen, r) =>
    if strlen > 255 then .error (.DataError [strlen / 2 ^ 8, strlen % 2 ^ 8])
    else if r.length < 2 * strlen then .error .IOError
    else
      match utf16Decode (utf16Units (r.take (2 * strlen))) with
      | some cs => .ok (⟨cs⟩, r.drop (2 * strlen))
      | none => .error .FromUtf16Error

/-- The response body string of the legacy ping (player.rs lines 144-155):
`format!("{}\x00{}\x00{}\x00{}\x00{}\x00", protocol, version, motd,
online_players, max_players)`, where the protocol prefers the configured
one over the byte the client sent. -/
def legacyResponseStr (info : ServerInfo) (protocolByte : Nat) : String :=
  toString (match info.config.protocol with | some p => p | none => protocolByte)
    ++ "\x00" ++ info.config.version ++ "\x00" ++ info.config.motd ++ "\x00"
    ++ toString info.config.online_players ++ "\x00" ++ toString info.config.max_players
    ++ "\x00"

/-- `Player::handle_legacy_ping` (player.rs lines 122-165).  Reads the
rest of the legacy request directly from the transport (a mismatched
packet identifier or ping string is only logged), then writes `0xFF`, the
`u16 BE` of `response.len()` (the UTF-8 byte length, wrapped `as u16`),
the six header bytes `00 A7 00 31 00 00`, and the UTF-16 BE code units of
the response string.  Returns the transport effect and the unread rest of
the stream. -/
def handle_legacy_ping (info : ServerInfo) (input : List Nat) :
    Except PacketError (Eff × List Nat) :=
  match readU8 input with
  | .error e => .error e
  | .ok (_, r1) =>
    match read_utf16_string r1 with
    | .error e => .error e
    | .ok (_, r2) =>
      match readU16BE r2 with
      | .error e => .error e
      | .ok (_, r3) =>
        match readU8 r3 with
        | .error e => .error e
        | .ok (protocolByte, r4) =>
          match read_utf16_string r4 with
          | .error e => .error e
          | .ok (_, r5) =>
            match readU32BE r5 with
            | .error e => .error e
            | .ok (_, r6) =>
              let response := legacyResponseStr info protocolByte
              let lenField := utf8Len response % 2 ^ 16
              .ok (⟨[255, lenField / 2 ^ 8, lenField % 2 ^ 8, 0, 167, 0, 49, 0, 0]
                      ++ (utf16Encode response).flatMap (fun u => [u / 2 ^ 8 % 2 ^ 8, u % 2 ^ 8]),
                    false⟩,
                   r6)

/-- Result of `Player::receive_packet`: the `Result` (with the possibly
updated player), the transport effects, and the unread remainder of the
stream. -/
structure RecvOut where
  res : Except PacketError Player
  eff : Eff
  remaining : List Nat
deriving DecidableEq, Repr

/-- `Player::receive_packet` (player.rs lines 167-185).  Decodes the frame
length varint, rejects lengths outside `(0, 256]` with `ClosedError`,
hands length 254 in `HANDSHAKING` to the legacy-ping handler on the raw
transport, and otherwise reads exactly that many bytes into a buffer and
lets `handle_packet` consume the buffer.  On an error result the
connection is closed, so the `remaining` field is then irrelevant.
`none` = some varint loop never terminates. -/
def receive_packet (client : Player) (info : ServerInfo) (motdParse kickParse : Option Json)
    (input : List Nat) : Option RecvOut :=
  match decode_stream input with
  | none => none
  | some (sizeP, rest) =>
    if toI32 sizeP ≤ 0 then some ⟨.error .ClosedError, noEff, rest⟩
    else if toI32 sizeP > 256 then some ⟨.error .ClosedError, noEff, rest⟩
    else if toI32 sizeP = 254 ∧ client.state = .HANDSHAKING then
      match handle_legacy_ping info rest with
      | .error e => some ⟨.error e, noEff, rest⟩
      | .ok (eff, r2) => some ⟨.ok client, eff, r2⟩
    else
      match readExact (toI32 sizeP).toNat rest with
      | .error e => some ⟨.error e, noEff, rest⟩
      | .ok (buf, r2) =>
        match handle_packet client buf info motdParse kickParse with
        | none => none
        | some ho => some ⟨ho.res, ho.eff, r2⟩

/-- Outcome of the length-varint read at the top of `receive_packet`
(player.rs line 168). -/
inductive LenReadOutcome where
  | panicked
  | proceeded (v : Int)
deriving DecidableEq, Repr

/-- Player.rs line 168: `varint::decode_stream(&mut self.connection).unwrap()`.
The transport read feeding this varint can fail (peer reset, or the 5 s
read timeout of main.rs lines 76-77); the argument models the `Result`
of `decode_stream` on such a transport.  `.unwrap()` on an `Err` is a
panic, not an error return. -/
def receive_packet_len_unwrap (r : Except Unit Int) : LenReadOutcome :=
  match r with
  | .error _ => .panicked
  | .ok v => .proceeded v

/-- `Reachable p`: the per-connection states a `Player` can be in, from
`Player::new` (player.rs lines 78-86, state `HANDSHAKING`, no handshake
info) through any sequence of successfully handled packets
(main.rs lines 81-96: the loop stops at the first error result). -/
inductive Reachable : Player → Prop where
  | init : Reachable ⟨.HANDSHAKING, none⟩
  | step (p : Player) (info : ServerInfo) (motdParse kickParse : Option Json)
      (input : List Nat) (ro : RecvOut) (p2 : Player) :
      Reachable p →
      receive_packet p info motdParse kickParse input = some ro →
      ro.res = .ok p2 →
      Reachable p2

/-! ### Concrete fixtures used by the theorems below -/

/-- A `ServerInfo` with the §8 legacy-ping example configuration:
protocol 47, version "1.8", motd "Hi", 0/20 players. -/
def sampleInfo : ServerInfo := ⟨⟨"1.8", some 47, 0, 20, [], "Hi", "kick"⟩, none⟩

/-- A connection that has completed a handshake with intent 2. -/
def loginClient : Player := ⟨.LOGIN, some ⟨759, [], 25565⟩⟩

/-- A `ServerInfo` whose kick message `"hello"` is not valid JSON (the
`json` crate rejects a bare identifier), so `json::parse` of it errs. -/
def helloInfo : ServerInfo := ⟨⟨"1.8", some 47, 0, 20, [], "A motd", "hello"⟩, none⟩

/-- A login-start frame body: `name_len = 3`, name `"Bob"`, zero uuid. -/
def loginBuf : List Nat := [3, 66, 111, 98, 0, 0, 0, 0, 0, 0, 0, 0, 0, 0, 0, 0, 0, 0, 0, 0]

/-- A full legacy ping on the wire: `FE 01` (decoded as frame length 254),
`FA`, the UTF-16 BE string "MC|PingHost" with its `u16` length 11, a
payload length word, protocol byte 47, an empty hostname, and port 0. -/
def legacyInput : List Nat :=
  [254, 1, 250, 0, 11,
   0, 77, 0, 67, 0, 124, 0, 80, 0, 105, 0, 110, 0, 103, 0, 72, 0, 111, 0, 115, 0, 116,
   0, 0, 47, 0, 0, 0, 0, 0, 0]

/-- The bytes the source writes in reply to `legacyInput` under
`sampleInfo`: `FF`, the `u16` 15 (= `response.len()`, the UTF-8 byte
count of the body string, not counting the header), the sentinel header
`00 A7 00 31 00 00`, then `"47\x001.8\x00Hi\x000\x0020\x00"` in
UTF-16 BE (15 code units, 30 bytes). -/
def legacyOut : List Nat :=
  [255, 0, 15, 0, 167, 0, 49, 0, 0,
   0, 52, 0, 55, 0, 0, 0, 49, 0, 46, 0, 56, 0, 0, 0, 72, 0, 105, 0, 0,
   0, 48, 0, 0, 0, 50, 0, 48, 0, 0]
/-! Non-termination lemmas for the varint loops. -/

/-- The pattern of `-1` is a fixed point of the arithmetic shift, so the
encode loop never exits on it, whatever the fuel. -/
theorem encodeLoop_neg_one (fuel : Nat) :
    ∀ acc, encodeLoop fuel (2 ^ 32 - 1) acc = none := by
  induction fuel with
  | zero => intro acc; rfl
  | succ n ih =>
    intro acc
    have h1 : asr7 (2 ^ 32 - 1) = 2 ^ 32 - 1 := by decide
    simp only [encodeLoop, h1]
    norm_num
    exact ih _

/-- After the stream is exhausted while the stale buffer byte is `0x80`,
the decode loop spins forever. -/
theorem decodeLoop_stale_cont (fuel : Nat) :
    ∀ shift result, decodeLoop fuel [] 128 shift result = none := by
  induction fuel with
  | zero => intro s r; rfl
  | succ n ih =>
    intro s r
    simp only [decodeLoop]
    norm_num
    exact ih _ _

/-- A stream consisting only of continuation bytes `0x80` never lets the
decode loop exit (the stale-buffer byte at end of stream is again `0x80`). -/
theorem decodeLoop_all_cont (l : List Nat) (hl : ∀ b ∈ l, b = 128) :
    ∀ fuel shift result, decodeLoop fuel l 128 shift result = none := by
  induction l with
  | nil => intro fuel s r; exact decodeLoop_stale_cont fuel s r
  | cons b bs ih =>
    intro fuel s r
    have hb : b = 128 := hl b (List.mem_cons_self b bs)
    have hbs : ∀ x ∈ bs, x = 128 := fun x hx => hl x (List.mem_cons_of_mem b hx)
    subst hb
    cases fuel with
    | zero => rfl
    | succ n =>
      simp only [decodeLoop]
      norm_num
      exact ih hbs n _ _


/-- A stream starting with the terminator byte 0 decodes to 0 at once. -/
theorem decode_stream_zero_cons (l : List Nat) : decode_stream (0 :: l) = some (0, l) := by
  have h0 : Nat.land 0 128 = 0 := by decide
  have h1 : Nat.lor 0 0 = 0 := by decide
  simp [decode_stream, decodeLoop, h0, h1]

/-- C1: "For every n in [i32::MIN, i32::MAX], encode(n) terminates
producing 1-5 bytes (negative values producing exactly 5 bytes, encoded
as the unsigned two's-complement pattern), and decode_stream applied to
encode(n) returns n."  The conjunction fails for every negative `n`: the
source shifts with `cur >> 7` on an `i32`, an arithmetic shift, so from
`n = -1` the loop variable stays `-1` forever and `encode` never
terminates (first conjunct, for every fuel).  For non-negative inputs the
claim's round trip does hold, illustrated here at the spec's own test
vectors 127, 128 and 2_835_928. -/
theorem varint_encode_negative_never_terminates :
    (∀ fuel, encodeLoop fuel (toPattern (-1)) [] = none) ∧
    encode 127 = some [127] ∧
    decode_stream [127] = some (127, []) ∧
    encode 128 = some [128, 1] ∧
    decode_stream [128, 1] = some (128, []) ∧
    encode 2835928 = some [216, 139, 173, 1] ∧
    decode_stream [216, 139, 173, 1] = some (2835928, []) := by
  refine ⟨?_, by decide, by decide, by decide, by decide, by decide, by decide⟩
  intro fuel
  have h : toPattern (-1) = 2 ^ 32 - 1 := by decide
  rw [h]
  exact encodeLoop_neg_one fuel []

/-- C4: "For every input stream whose first six bytes all have the
continuation bit set (e.g. [0x80, 0x80, 0x80, 0x80, 0x80, 0x80]), varint
decode fails with the MalformedVarint error when the 6th byte is
reached without a terminator."  The source has no byte-count check and
`PacketError` has no `MalformedVarint` variant at all; on this input the
decode loop processes the six continuation bytes and then spins forever
on the stale buffer byte `0x80` (first conjunct: no fuel suffices), so it
never returns any error. -/
theorem decode_all_cont_never_returns :
    (∀ fuel, decodeLoop fuel [128, 128, 128, 128, 128, 128] 0 0 0 = none) ∧
    decode_stream [128, 128, 128, 128, 128, 128] = none := by
  refine ⟨?_, by decide⟩
  intro fuel
  cases fuel with
  | zero => rfl
  | succ n =>
    have h : ∀ x ∈ [128, 128, 128, 128, 128], x = (128 : Nat) := by decide
    simp only [decodeLoop]
    norm_num
    exact decodeLoop_all_cont _ h n _ _

/-- C8: "For every connection, a transport read or write failure
(including 5-second timeout expiry) while reading or handling a packet
surfaces as an IOError result returned to the per-connection task..."
This fails at the very first read of every packet: player.rs line 168
calls `.unwrap()` on the length-varint decode, so a read failure there
(e.g. the 5 s timeout firing on an idle connection) panics the
per-connection thread instead of returning `IOError` (first conjunct).
A short read *inside* an accepted frame does surface as `IOError`
(second conjunct, frame length 5 with an empty remainder). -/
theorem len_varint_read_failure_panics :
    receive_packet_len_unwrap (.error ()) = .panicked ∧
    receive_packet ⟨.STATUS, none⟩ sampleInfo none none [5] =
      some ⟨.error .IOError, noEff, []⟩ := by decide

/-- C2: "For every ServerInfo snapshot and connection, the
status-request handler emits a JSON object whose version.protocol is
config.protocol when set, else the protocol captured in the handshake,
else 127; whose description is the JSON parse of config.motd when
config.motd parses as JSON and the unchanged string otherwise; and whose
favicon is the string "data:image/png;base64," concatenated with the
stored icon text when an icon is present, and JSON null otherwise."
`motdParse` is the outcome of `json::parse(config.motd)` (`some v` when
the MOTD parses as JSON). -/
theorem status_response_fields (client : Player) (info : ServerInfo)
    (motdParse : Option Json) :
    (match jLookup (handle_statusJson client info motdParse) "version" with
      | some v => jLookup v "protocol"
      | none => none) = some (Json.num ((statusProtocol client info : Nat) : Int)) ∧
    jLookup (handle_statusJson client info motdParse) "description"
      = some (motdParse.getD (Json.str info.config.motd)) ∧
    jLookup (handle_statusJson client info motdParse) "favicon"
      = some (match info.icon with
          | some i => Json.str ("data:image/png;base64," ++ i)
          | none => Json.null) ∧
    statusProtocol client info = (match info.config.protocol with
      | some p => p
      | none => match client.handshake_info with
        | some h => h.protocol
        | none => 127) := ⟨rfl, rfl, rfl, rfl⟩

/-- C7: "For every legacy ping, the response begins with byte 0xFF
followed by a big-endian u16 response_chars equal to the number of
UTF-16 code units that follow the length field (including the header
U+00A7 U+0031 NUL), and the payload after the length field begins with
the bytes 0x00 0xA7 0x00 0x31 0x00 0x00, ..."  Evaluated at the spec's
§8 example (protocol 47, version "1.8", motd "Hi", 0/20 players): the
first byte is `0xFF` and the header bytes follow as claimed, but the
source writes `response.len()` — the UTF-8 byte length 15 of the body
string, not counting the 3 header units — while 18 UTF-16 code units
follow the length field. -/
theorem legacy_ping_length_field_wrong :
    receive_packet ⟨.HANDSHAKING, none⟩ sampleInfo none none legacyInput =
      some ⟨.ok ⟨.HANDSHAKING, none⟩, ⟨legacyOut, false⟩, []⟩ ∧
    legacyOut.take 3 = [255, 0, 15] ∧
    (legacyOut.drop 3).take 6 = [0, 167, 0, 49, 0, 0] ∧
    (legacyOut.drop 3).length = 2 * 18 ∧
    (15 : Nat) ≠ 18 := by decide

/-- C3: "For every connection and every decoded frame length L,
receive_packet returns ClosedError when L <= 0 or L > 256; when L == 254
and the state is Handshaking it dispatches to the legacy-ping handler
without frame parsing; otherwise it reads exactly L bytes as the frame
and decodes the packet id from them (the first step of `handle_packet`).
In any state other than Handshaking, L == 254 is processed as an
ordinary frame." -/
theorem receive_packet_framing (client : Player) (info : ServerInfo)
    (motdParse kickParse : Option Json) (input : List Nat) (sizeP : Nat) (rest : List Nat)
    (h : decode_stream input = some (sizeP, rest)) :
    (toI32 sizeP ≤ 0 ∨ toI32 sizeP > 256 →
      receive_packet client info motdParse kickParse input =
        some ⟨.error .ClosedError, noEff, rest⟩) ∧
    (toI32 sizeP = 254 → client.state = .HANDSHAKING →
      receive_packet client info motdParse kickParse input =
        (match handle_legacy_ping info rest with
          | .error e => some ⟨.error e, noEff, rest⟩
          | .ok (eff, r2) => some ⟨.ok client, eff, r2⟩)) ∧
    (0 < toI32 sizeP → toI32 sizeP ≤ 256 →
      ¬(toI32 sizeP = 254 ∧ client.state = .HANDSHAKING) →
      receive_packet client info motdParse kickParse input =
        (match readExact (toI32 sizeP).toNat rest with
          | .error e => some ⟨.error e, noEff, rest⟩
          | .ok (buf, r2) =>
            match handle_packet client buf info motdParse kickParse with
            | none => none
            | some ho => some ⟨ho.res, ho.eff, r2⟩)) ∧
    (client.state ≠ .HANDSHAKING → toI32 sizeP = 254 →
      receive_packet client info motdParse kickParse input =
        (match readExact (toI32 sizeP).toNat rest with
          | .error e => some ⟨.error e, noEff, rest⟩
          | .ok (buf, r2) =>
            match handle_packet client buf info motdParse kickParse with
            | none => none
            | some ho => some ⟨ho.res, ho.eff, r2⟩)) := by
  unfold receive_packet
  simp only [h]
  refine ⟨?_, ?_, ?_, ?_⟩
  · rintro (h1 | h1)
    · rw [if_pos h1]
    · rw [if_neg (by omega), if_pos h1]
  · intro h254 hHS
    rw [if_neg (by omega), if_neg (by omega), if_pos ⟨h254, hHS⟩]
  · intro hpos hle hnl
    rw [if_neg (by omega), if_neg (by omega), if_neg hnl]
  · intro hne h254
    rw [if_neg (by omega), if_neg (by omega), if_neg (fun hc => hne hc.2)]

/-- Witness for `receive_packet_framing` at frame length 0: the frame is
rejected with `ClosedError`. -/
theorem receive_packet_framing_witness :
    decode_stream [0] = some (0, []) ∧
    receive_packet ⟨.STATUS, none⟩ sampleInfo none none [0] =
      some ⟨.error .ClosedError, noEff, []⟩ :=
  ⟨by decide,
   (receive_packet_framing ⟨.STATUS, none⟩ sampleInfo none none [0] 0 [] (by decide)).1
     (Or.inl (by decide))⟩

/-- C10: "For every accepted non-legacy frame of length L, the packet
handler reads only from the in-memory L-byte buffer, never directly from
the transport; any body bytes the handler leaves unconsumed are
discarded, so parsing of the next frame starts at the stream position
exactly L bytes after the previous frame's length prefix, regardless of
how much of the body the handler consumed."  The handler receives
exactly the first `L` bytes after the length prefix, and the remaining
stream is the drop of exactly `L` bytes, whatever the handler's result
`ho` is. -/
theorem frame_buffer_isolation (client : Player) (info : ServerInfo)
    (motdParse kickParse : Option Json) (input : List Nat) (sizeP : Nat) (rest : List Nat)
    (h : decode_stream input = some (sizeP, rest))
    (hpos : 0 < toI32 sizeP) (hle : toI32 sizeP ≤ 256)
    (hnl : ¬(toI32 sizeP = 254 ∧ client.state = .HANDSHAKING))
    (hlen : (toI32 sizeP).toNat ≤ rest.length) :
    receive_packet client info motdParse kickParse input =
      (match handle_packet client ((rest.take (toI32 sizeP).toNat).map (fun b => b % 2 ^ 8))
          info motdParse kickParse with
        | none => none
        | some ho => some ⟨ho.res, ho.eff, rest.drop (toI32 sizeP).toNat⟩) := by
  unfold receive_packet
  simp only [h]
  rw [if_neg (by omega), if_neg (by omega), if_neg hnl]
  unfold readExact
  rw [if_pos hlen]

/-- Witness for `frame_buffer_isolation`: a 1-byte frame (packet id 0) in
`TRANSFER` state is read whole and ignored, leaving the stream empty. -/
theorem frame_buffer_isolation_witness :
    decode_stream [1, 0] = some (1, [0]) ∧
    receive_packet ⟨.TRANSFER, none⟩ sampleInfo none none [1, 0] =
      some ⟨.ok ⟨.TRANSFER, none⟩, noEff, []⟩ := by
  refine ⟨by decide, ?_⟩
  rw [frame_buffer_isolation ⟨.TRANSFER, none⟩ sampleInfo none none [1, 0] 1 [0]
    (by decide) (by decide) (by decide) (by decide) (by decide)]
  decide

/-- C5 counterexample: the claim "every intent value outside {1,2,3}
fails the handshake with DataError" is false.  The source converts the
intent varint with `intent as u8` before `ConnectionState::try_from`, so
intent 257 (varint bytes `81 02`), which is outside {1,2,3}, truncates
to 1 and the handshake succeeds into `STATUS`.  The handshake body here
is protocol 0, an empty host, port 0, intent 257. -/
theorem handshake_intent_truncation :
    decode_stream [129, 2] = some (257, []) ∧
    ¬(257 = 1 ∨ 257 = 2 ∨ 257 = 3) ∧
    handle_handshake ⟨.HANDSHAKING, none⟩ [0, 0, 0, 0, 129, 2] =
      some ⟨.ok ⟨.STATUS, some ⟨0, [], 0⟩⟩, noEff⟩ := by decide

/-- C5 amended: for every handshake packet processed in Handshaking
state — any protocol varint, any varint-length-prefixed valid-UTF-8 host,
any port, any intent varint — an intent whose low byte (`intent as u8`)
is 1 moves the connection to Status, 2 to Login, 3 to Transfer, storing
the parsed `HandshakeInfo`, and every intent whose low byte is outside
{1,2,3} fails the handshake with DataError carrying that truncated byte
(after which the connection is closed).  The hypotheses are exactly the
parse steps of `handle_handshake` on the frame body `buf`. -/
theorem handshake_intent_as_u8 (client : Player) (buf : List Nat)
    (protoP : Nat) (r1 : List Nat) (strlenP : Nat) (r2 : List Nat)
    (strbuf r3 : List Nat) (port : Nat) (r4 : List Nat) (intentP : Nat) (r5 : List Nat)
    (h1 : decode_stream buf = some (protoP, r1))
    (h2 : decode_stream r1 = some (strlenP, r2))
    (h3 : readExact (usizeOfI32 (toI32 strlenP)) r2 = .ok (strbuf, r3))
    (h4 : isValidUtf8 strbuf = true)
    (h5 : readU16BE r3 = .ok (port, r4))
    (h6 : decode_stream r4 = some (intentP, r5)) :
    handle_handshake client buf =
      (if intentP % 2 ^ 8 = 1 then
        some ⟨.ok ⟨.STATUS, some ⟨protoP % 2 ^ 16, strbuf, port⟩⟩, noEff⟩
       else if intentP % 2 ^ 8 = 2 then
        some ⟨.ok ⟨.LOGIN, some ⟨protoP % 2 ^ 16, strbuf, port⟩⟩, noEff⟩
       else if intentP % 2 ^ 8 = 3 then
        some ⟨.ok ⟨.TRANSFER, some ⟨protoP % 2 ^ 16, strbuf, port⟩⟩, noEff⟩
       else some ⟨.error (.DataError [intentP % 2 ^ 8]), noEff⟩) := by
  unfold handle_handshake
  simp only [h1, h2, h3, h5, h6]
  rw [if_neg (by simp [h4])]

/-- Witness for `handshake_intent_as_u8` at the spec's §8 handshake body
(protocol 759, host "localhost", port 25565) with intent 4: the
handshake fails with `DataError([4])`. -/
theorem handshake_intent_as_u8_witness :
    decode_stream [247, 5, 9, 108, 111, 99, 97, 108, 104, 111, 115, 116, 99, 221, 4] =
      some (759, [9, 108, 111, 99, 97, 108, 104, 111, 115, 116, 99, 221, 4]) ∧
    handle_handshake ⟨.HANDSHAKING, none⟩
      [247, 5, 9, 108, 111, 99, 97, 108, 104, 111, 115, 116, 99, 221, 4] =
      some ⟨.error (.DataError [4]), noEff⟩ := by
  refine ⟨by decide, ?_⟩
  have h := handshake_intent_as_u8 ⟨.HANDSHAKING, none⟩
    [247, 5, 9, 108, 111, 99, 97, 108, 104, 111, 115, 116, 99, 221, 4]
    759 [9, 108, 111, 99, 97, 108, 104, 111, 115, 116, 99, 221, 4]
    9 [108, 111, 99, 97, 108, 104, 111, 115, 116, 99, 221, 4]
    [108, 111, 99, 97, 108, 104, 111, 115, 116] [99, 221, 4]
    25565 [4] 4 []
    (by decide) (by decide) (by decide) (by decide) (by decide) (by decide)
  rw [h]
  decide

/-- C6 counterexample: the claim's "otherwise ... s is ... the same
string wrapped as a JSON string literal with quotes added" is false.
With kick message `"hello"` (which does not parse as JSON, so
`kickParse = none`) and a valid login-start frame, the source sends the
string unquoted: body `varint(5) ‖ "hello"`, not the claimed
`varint(7) ‖ "\"hello\""`. -/
theorem login_kick_not_quoted :
    handle_login loginClient loginBuf helloInfo none =
      some ⟨.ok loginClient, ⟨send_packet 0 (encodeD 5 ++ strUtf8 "hello"), false⟩⟩ ∧
    send_packet 0 (encodeD 5 ++ strUtf8 "hello") ≠
      send_packet 0 (encodeD 7 ++ strUtf8 "\"hello\"") := by decide

/-- C6 amended: "For every login-start packet, if name_len <= 0 or
name_len > 16 the handler shuts down the transport in both directions
and returns DataError with the name_len bytes; otherwise it responds
with packet id 0x00 whose body is varint(len(s)) followed by s, where s
is the reserialization of the parsed JSON value when config.kick_message
parses as JSON, and the kick message string unchanged (no quotes added)
otherwise."  `kickParse` is the outcome of
`json::parse(config.kick_message)`. -/
theorem login_length_check_and_kick (client : Player) (buf : List Nat) (info : ServerInfo)
    (kickParse : Option Json) (nlP : Nat) (r1 : List Nat)
    (h : decode_stream buf = some (nlP, r1)) :
    (toI32 nlP ≤ 0 ∨ toI32 nlP > 16 →
      handle_login client buf info kickParse =
        some ⟨.error (.DataError (i32BeBytes (toI32 nlP))), ⟨[], true⟩⟩) ∧
    (0 < toI32 nlP → toI32 nlP ≤ 16 →
      ∀ namebuf r2, readExact (toI32 nlP).toNat r1 = .ok (namebuf, r2) →
        isValidUtf8 namebuf = true → 16 ≤ r2.length →
        handle_login client buf info kickParse =
          some ⟨.ok client, ⟨send_packet 0
            (encodeD (utf8Len (kickString info kickParse) : Int)
              ++ strUtf8 (kickString info kickParse)), false⟩⟩) := by
  unfold handle_login
  simp only [h]
  constructor
  · intro hc
    rw [if_pos hc]
  · intro h1 h2 namebuf r2 hre hval hlen
    rw [if_neg (by omega)]
    simp only [hre]
    rw [if_neg (by simp [hval])]
    unfold readExact
    rw [if_pos hlen]

/-- Witness for `login_length_check_and_kick` at name length 17: the
transport is shut down and `DataError` on the bytes `00 00 00 11`
is returned. -/
theorem login_length_check_witness :
    decode_stream [17] = some (17, []) ∧
    handle_login loginClient [17] helloInfo none =
      some ⟨.error (.DataError [0, 0, 0, 17]), ⟨[], true⟩⟩ := by
  refine ⟨by decide, ?_⟩
  have h := (login_length_check_and_kick loginClient [17] helloInfo none 17 []
    (by decide)).1 (Or.inr (by decide))
  exact h.trans (by decide)

/-- A successful `handle_handshake` always leaves the connection in a
state other than `HANDSHAKING` with a stored `HandshakeInfo`
(`ConnectionState::try_from` never produces `HANDSHAKING`, and the state
and the info are stored together). -/
theorem handle_handshake_ok (c : Player) (buf : List Nat) (ho : HandlerOut) (p2 : Player)
    (h : handle_handshake c buf = some ho) (hok : ho.res = .ok p2) :
    p2.state ≠ .HANDSHAKING ∧ p2.handshake_info ≠ none := by
  unfold handle_handshake at h
  repeat' split at h
  all_goals first
    | exact Option.noConfusion h
    | (injection h with h2; subst h2; simp at hok; subst hok; simp)
    | (injection h with h2; subst h2; simp at hok)

/-- A successful `handle_ping` leaves the player unchanged. -/
theorem handle_ping_ok (c : Player) (buf : List Nat) (p2 : Player)
    (hok : (handle_ping c buf).res = .ok p2) : p2 = c := by
  unfold handle_ping at hok
  split at hok <;> simp at hok
  exact hok.symm

/-- A successful `handle_login` leaves the player unchanged. -/
theorem handle_login_ok (c : Player) (buf : List Nat) (info : ServerInfo)
    (kp : Option Json) (ho : HandlerOut) (p2 : Player)
    (h : handle_login c buf info kp = some ho) (hok : ho.res = .ok p2) : p2 = c := by
  unfold handle_login at h
  repeat' split at h
  all_goals first
    | exact Option.noConfusion h
    | (injection h with h2; subst h2; simp at hok; exact hok.symm)
    | (injection h with h2; subst h2; simp at hok)

/-- A successful `handle_packet` either leaves the player unchanged or
performs the handshake transition out of `HANDSHAKING`. -/
theorem handle_packet_ok (c : Player) (buf : List Nat) (info : ServerInfo)
    (mp kp : Option Json) (ho : HandlerOut) (p2 : Player)
    (h : handle_packet c buf info mp kp = some ho) (hok : ho.res = .ok p2) :
    p2 = c ∨ (c.state = .HANDSHAKING ∧ p2.state ≠ .HANDSHAKING ∧ p2.handshake_info ≠ none) := by
  unfold handle_packet at h
  cases hd : decode_stream buf with
  | none => rw [hd] at h; exact Option.noConfusion h
  | some v =>
    obtain ⟨pidP, r1⟩ := v
    rw [hd] at h
    dsimp only at h
    by_cases h0 : toI32 pidP = 0
    · rw [if_pos h0] at h
      unfold handle_status_login at h
      cases hs : c.state with
      | HANDSHAKING =>
        rw [hs] at h
        have h2 := handle_handshake_ok c r1 ho p2 h hok
        exact Or.inr ⟨rfl, h2.1, h2.2⟩
      | STATUS =>
        rw [hs] at h
        injection h with h2
        rw [← h2] at hok
        unfold handle_status at hok
        have hok2 : (Except.ok c : Except PacketError Player) = .ok p2 := hok
        injection hok2 with h3
        exact Or.inl h3.symm
      | LOGIN =>
        rw [hs] at h
        exact Or.inl (handle_login_ok c r1 info kp ho p2 h hok)
      | TRANSFER =>
        rw [hs] at h
        injection h with h2
        rw [← h2] at hok
        have hok2 : (Except.ok c : Except PacketError Player) = .ok p2 := hok
        injection hok2 with h3
        exact Or.inl h3.symm
    · rw [if_neg h0] at h
      by_cases h1 : toI32 pidP = 1
      · rw [if_pos h1] at h
        injection h with h2
        rw [← h2] at hok
        exact Or.inl (handle_ping_ok c r1 p2 hok)
      · rw [if_neg h1] at h
        injection h with h2
        rw [← h2] at hok
        have hok2 : (Except.ok c : Except PacketError Player) = .ok p2 := hok
        injection hok2 with h3
        exact Or.inl h3.symm

/-- A successful `receive_packet` either leaves the player unchanged
(closed/legacy/ignored paths and the Status/Login handlers) or performs
the handshake transition out of `HANDSHAKING`. -/
theorem receive_packet_ok (c : Player) (info : ServerInfo) (mp kp : Option Json)
    (input : List Nat) (ro : RecvOut) (p2 : Player)
    (h : receive_packet c info mp kp input = some ro) (hok : ro.res = .ok p2) :
    p2 = c ∨ (c.state = .HANDSHAKING ∧ p2.state ≠ .HANDSHAKING ∧ p2.handshake_info ≠ none) := by
  unfold receive_packet at h
  cases hd : decode_stream input with
  | none => rw [hd] at h; exact Option.noConfusion h
  | some v =>
    obtain ⟨sizeP, rest⟩ := v
    rw [hd] at h
    dsimp only at h
    split_ifs at h with c1 c2 c3
    · injection h with h2
      rw [← h2] at hok
      exact absurd hok (by simp)
    · injection h with h2
      rw [← h2] at hok
      exact absurd hok (by simp)
    · cases hl : handle_legacy_ping info rest with
      | error e =>
        rw [hl] at h
        injection h with h2
        rw [← h2] at hok
        exact absurd hok (by simp)
      | ok pr =>
        obtain ⟨eff, r2⟩ := pr
        rw [hl] at h
        injection h with h2
        rw [← h2] at hok
        have hok2 : (Except.ok c : Except PacketError Player) = .ok p2 := hok
        injection hok2 with h3
        exact Or.inl h3.symm
    · cases hre : readExact (toI32 sizeP).toNat rest with
      | error e =>
        rw [hre] at h
        injection h with h2
        rw [← h2] at hok
        exact absurd hok (by simp)
      | ok br =>
        obtain ⟨buf, r2⟩ := br
        rw [hre] at h
        dsimp only at h
        cases hp : handle_packet c buf info mp kp with
        | none => rw [hp] at h; exact Option.noConfusion h
        | some ho =>
          rw [hp] at h
          injection h with h2
          rw [← h2] at hok
          exact handle_packet_ok c buf info mp kp ho p2 hp hok

/-- C9: "In every reachable connection state: a connection in
Handshaking state has no HandshakeInfo, and a connection in Status,
Login, or Transfer state has one; the legacy-ping branch never advances
the state out of Handshaking and never stores a HandshakeInfo."  The
first conjunct is the invariant over all reachable players; the second
states that the legacy branch (frame length 254 in `HANDSHAKING`)
returns the player unchanged whenever it succeeds. -/
theorem handshake_info_invariant :
    (∀ p : Player, Reachable p →
      (p.state = .HANDSHAKING → p.handshake_info = none) ∧
      (p.state ≠ .HANDSHAKING → p.handshake_info ≠ none)) ∧
    (∀ (c : Player) (info : ServerInfo) (mp kp : Option Json) (input : List Nat)
        (sizeP : Nat) (rest : List Nat) (ro : RecvOut) (p2 : Player),
      decode_stream input = some (sizeP, rest) → toI32 sizeP = 254 →
      c.state = .HANDSHAKING →
      receive_packet c info mp kp input = some ro → ro.res = .ok p2 → p2 = c) := by
  constructor
  · intro p hr
    induction hr with
    | init => exact ⟨fun _ => rfl, fun hne => absurd rfl hne⟩
    | step p info mp kp input ro p2 hr hrecv hok ih =>
      rcases receive_packet_ok p info mp kp input ro p2 hrecv hok with h | ⟨h1, h2, h3⟩
      · exact h ▸ ih
      · exact ⟨fun hh => absurd hh h2, fun _ => h3⟩
  · intro c info mp kp input sizeP rest ro p2 hd h254 hHS hrecv hok
    unfold receive_packet at hrecv
    rw [hd] at hrecv
    dsimp only at hrecv
    rw [if_neg (by omega), if_neg (by omega), if_pos ⟨h254, hHS⟩] at hrecv
    cases hl : handle_legacy_ping info rest with
    | error e =>
      rw [hl] at hrecv
      injection hrecv with h2
      rw [← h2] at hok
      exact absurd hok (by simp)
    | ok pr =>
      obtain ⟨eff, r2⟩ := pr
      rw [hl] at hrecv
      injection hrecv with h2
      rw [← h2] at hok
      have hok2 : (Except.ok c : Except PacketError Player) = .ok p2 := hok
      injection hok2 with h3
      exact h3.symm

/-- Witness for `handshake_info_invariant`: the initial player has no
handshake info, and a concrete successful legacy ping (the `legacyInput`
bytes under `sampleInfo`) leaves the initial player unchanged. -/
theorem handshake_info_invariant_witness :
    (⟨.HANDSHAKING, none⟩ : Player).handshake_info = none ∧
    (⟨.HANDSHAKING, none⟩ : Player) = ⟨.HANDSHAKING, none⟩ := by
  constructor
  · exact (handshake_info_invariant.1 ⟨.HANDSHAKING, none⟩ Reachable.init).1 rfl
  · exact handshake_info_invariant.2 ⟨.HANDSHAKING, none⟩ sampleInfo none none legacyInput
      254 (legacyInput.drop 2)
      ((receive_packet ⟨.HANDSHAKING, none⟩ sampleInfo none none legacyInput).getD
        ⟨.error .ClosedError, noEff, []⟩)
      ⟨.HANDSHAKING, none⟩ (by decide) (by decide) rfl (by decide) (by decide)
